import Mathlib

/-!
Shallow embedding of the instruction sequencer of the riscv-reboot RV32I
processor (src/consts.py, src/sequencer_card.py, src/sequencer_rom.py).

The sequencer card (sequencer_card.py) is embedded as one machine-cycle step
function: each call to cardCycle mirrors one full ph1/ph2 machine cycle of
SequencerCard.elaborate.  Combinational control signals become a Ctrl record,
computed per opcode handler exactly as the source methods compute them; the
register commits (m.d.ph1 and m.d.ph2 assignments) are applied at the end of
the cycle, reading the pre-cycle state, which matches the two-phase clock of
the source.  The one deliberate timing refinement: the source writes the trap
cause on the ph2 clock, whose edge falls inside the machine cycle, so during
trap phase 0 the combinational vector computation and the ph1 write to mcause
see the freshly staged cause; effCause below computes that staged value.

The newer-generation control ROM (sequencer_rom.py) only emits control
signals; the data-path cards that consume them are not part of this
repository snapshot, so a small data-path commit (romCommit) is modelled from
the spec where noted.
-/

namespace RVSeq

/-! ## Instruction field decoding (sequencer_card.py, elaborate, lines 402-413) -/

/-- opcode = instr[0:7]. -/
def opcode (w : Nat) : Nat := w % 2 ^ 7

/-- rd = instr[7:12]. -/
def rd (w : Nat) : Nat := w / 2 ^ 7 % 2 ^ 5

/-- funct3 = instr[12:15]. -/
def funct3 (w : Nat) : Nat := w / 2 ^ 12 % 2 ^ 3

/-- rs1 = instr[15:20]. -/
def rs1 (w : Nat) : Nat := w / 2 ^ 15 % 2 ^ 5

/-- rs2 = instr[20:25]. -/
def rs2 (w : Nat) : Nat := w / 2 ^ 20 % 2 ^ 5

/-- funct7 = instr[25:32]. -/
def funct7 (w : Nat) : Nat := w / 2 ^ 25 % 2 ^ 7

/-- funct12 = instr[20:32] (a 12-bit signal in the source). -/
def funct12 (w : Nat) : Nat := w / 2 ^ 20 % 2 ^ 12

/-- alu_func[0:3] = funct3, alu_func[3] = funct7[5]. -/
def alu_func (w : Nat) : Nat := funct3 w + 8 * (funct7 w / 2 ^ 5 % 2)

/-- Instruction formats (consts.py, OpcodeFormat). -/
inductive Fmt
  | R | I | U | S | B | J | SYS
deriving DecidableEq, Repr

/-- Two's-complement sign extension of a `width`-bit value to 32 bits,
as performed by assigning to a Signal(signed(width)) and reading it
into a 32-bit signal. -/
def signExtend (width v : Nat) : Nat :=
  if v / 2 ^ (width - 1) % 2 = 1 then v % 2 ^ width + (2 ^ 32 - 2 ^ width)
  else v % 2 ^ width

/-- decode_imm (sequencer_card.py, lines 477-533): the immediate value
for each instruction format.  B and J immediates have their bit 0 forced
to zero; the SYS immediate is the zero-extended rs1 field. -/
def decode_imm : Fmt → Nat → Nat
  | .I, w => signExtend 12 (w / 2 ^ 20 % 2 ^ 12)
  | .S, w => signExtend 12 (rd w + 2 ^ 5 * funct7 w)
  | .R, _ => 0
  | .U, w => w / 2 ^ 12 % 2 ^ 20 * 2 ^ 12
  | .B, w =>
      signExtend 13 (2 ^ 12 * (w / 2 ^ 31 % 2) + 2 ^ 11 * (w / 2 ^ 7 % 2)
        + 2 ^ 5 * (w / 2 ^ 25 % 2 ^ 6) + 2 * (w / 2 ^ 8 % 2 ^ 4))
  | .J, w =>
      signExtend 21 (2 ^ 20 * (w / 2 ^ 31 % 2) + 2 ^ 12 * (w / 2 ^ 12 % 2 ^ 8)
        + 2 ^ 11 * (w / 2 ^ 20 % 2) + 2 * (w / 2 ^ 21 % 2 ^ 10))
  | .SYS, w => rs1 w

/-! ## ALU (external collaborator) -/

/-- ALU operations (consts.py, AluOp). -/
inductive AluOp
  | NONE | ADD | SUB | SLL | SLT | SLTU | XOR | SRL | SRA | OR | AND | X | Y | AND_NOT
deriving DecidableEq, Repr

/-- 32-bit arithmetic shift right by k (0 ≤ k < 32). -/
def sra32 (x k : Nat) : Nat :=
  if x / 2 ^ 31 % 2 = 1 then x / 2 ^ k + (2 ^ 32 - 2 ^ (32 - k)) else x / 2 ^ k

/-- Modelled from the spec: the ALU card is an external collaborator
(spec sections 1 and 6: it consumes an operation tag and two 32-bit
operands and produces a 32-bit result); standard RV32 semantics of the
operations named by AluOp.  Shift amounts use the low 5 bits of Y. -/
def alu (op : AluOp) (a b : Nat) : Nat :=
  let x := a % 2 ^ 32
  let y := b % 2 ^ 32
  match op with
  | .NONE => 0
  | .ADD => (x + y) % 2 ^ 32
  | .SUB => (x + (2 ^ 32 - y)) % 2 ^ 32
  | .SLL => x * 2 ^ (y % 32) % 2 ^ 32
  | .SLT => if (x + 2 ^ 31) % 2 ^ 32 < (y + 2 ^ 31) % 2 ^ 32 then 1 else 0
  | .SLTU => if x < y then 1 else 0
  | .XOR => x ^^^ y
  | .SRL => x / 2 ^ (y % 32)
  | .SRA => sra32 x (y % 32)
  | .OR => x ||| y
  | .AND => x &&& y
  | .X => x
  | .Y => y
  | .AND_NOT => x &&& (0xFFFFFFFF ^^^ y)

/-- Modelled from the spec: the ALU flag output eq (spec section 6). -/
def aluEq (a b : Nat) : Bool := a % 2 ^ 32 == b % 2 ^ 32

/-- Modelled from the spec: the ALU flag output lt (signed compare). -/
def aluLt (a b : Nat) : Bool :=
  decide ((a % 2 ^ 32 + 2 ^ 31) % 2 ^ 32 < (b % 2 ^ 32 + 2 ^ 31) % 2 ^ 32)

/-- Modelled from the spec: the ALU flag output ltu (unsigned compare). -/
def aluLtu (a b : Nat) : Bool := decide (a % 2 ^ 32 < b % 2 ^ 32)

/-! ## Register file (external collaborator) -/

/-- The register file contents, indexed by register number. -/
def Regs := Nat → Nat

/-- Modelled from the spec: register file reads of index 0 yield 0
(spec section 3). -/
def regRead (r : Regs) (i : Nat) : Nat := if i = 0 then 0 else r i

/-- Modelled from the spec: the register file write port; write enable is
implied by a nonzero register selector, and writes to index 0 are
discarded (spec sections 3 and 6). -/
def regWrite (r : Regs) (i v : Nat) : Regs :=
  if i = 0 then r else fun j => if j = i then v else r j

/-! ## Bit helpers for mstatus -/

/-- Set bit i of m. -/
def setBit (m i : Nat) : Nat := m ||| 2 ^ i

/-- Clear bit i of m. -/
def clearBit (m i : Nat) : Nat := if Nat.testBit m i then m - 2 ^ i else m

/-- Trap entry mstatus update (sequencer_card.py, lines 592-594):
mstatus.MPIE (bit 7) gets mstatus.MIE (bit 3); mstatus.MIE is cleared. -/
def mstatusPush (m : Nat) : Nat :=
  clearBit (if Nat.testBit m 3 then setBit m 7 else clearBit m 7) 3

/-- MRET mstatus update (sequencer_card.py, lines 1353-1355):
mstatus.MIE (bit 3) gets mstatus.MPIE (bit 7); mstatus.MPIE is set. -/
def mstatusPop (m : Nat) : Nat :=
  setBit (if Nat.testBit m 7 then setBit m 3 else clearBit m 3) 7

/-! ## SequencerState (sequencer_card.py, class SequencerState) -/

/-- The registers of the sequencer card (SequencerState).  The unused
reg_page signal is omitted.  instr is the output of the instruction
transparent latch. -/
structure CardState where
  pc : Nat
  instr_phase : Nat
  instr : Nat
  stored_alu_eq : Bool
  stored_alu_lt : Bool
  stored_alu_ltu : Bool
  memaddr : Nat
  memdata_wr : Nat
  tmp : Nat
  reg_time_irq : Bool
  reg_ext_irq : Bool
  trap : Bool
  trap_svc : Bool
  exception : Bool
  trap_cause : Nat
  mtvec : Nat
  mcause : Nat
  mepc : Nat
  mtval : Nat
  mstatus : Nat
deriving Repr

/-- CSR read routing onto X (sequencer_card.py, lines 374-385): the
switch on csr_num under csr_to_x.  Unrecognised numbers leave the X bus
at its default of zero. -/
def card_csr_read (s : CardState) (num : Nat) : Nat :=
  if num = 0x342 then s.mcause
  else if num = 0x305 then s.mtvec
  else if num = 0x341 then s.mepc
  else if num = 0x343 then s.mtval
  else if num = 0x300 then s.mstatus
  else 0

/-- CSR write routing from Z (sequencer_card.py, lines 356-367): the
switch on csr_num under z_to_csr.  Unrecognised numbers write nothing. -/
def card_csr_write (s : CardState) (num v : Nat) : CardState :=
  if num = 0x342 then { s with mcause := v }
  else if num = 0x305 then { s with mtvec := v }
  else if num = 0x341 then { s with mepc := v }
  else if num = 0x343 then { s with mtval := v }
  else if num = 0x300 then { s with mstatus := v }
  else s

/-- The staged trap cause as seen by the ph1 commits of trap phase 0.
The source writes _trap_cause on the ph2 clock (sequencer_card.py,
lines 544-549), whose edge falls inside the machine cycle, so the
combinational is_int / vector computation and the ph1 write to mcause
(line 553) see this staged value. -/
def effCause (s : CardState) : Nat :=
  if s.exception then s.trap_cause
  else if s.reg_time_irq then 0x80000007
  else if s.reg_ext_irq then 0x8000000B
  else s.trap_cause

/-! ## Combinational control signals (one machine cycle) -/

/-- The combinational control signals driven by the sequencer card in
one machine cycle, with the defaults of elaborate (lines 207-246).
exc records a set_exception call (cause, mtval source value);
x_override / y_override are the direct data_x_out / data_y_out drives of
handle_trap phase 0; trap_p0, trap_p1_fatal, trap_p1_enter and mret mark
the direct ph1/ph2 register updates of handle_trap and handle_MRET. -/
structure Ctrl where
  fmt : Fmt := .R
  next_phase : Nat := 0
  reg_to_x : Bool := false
  x_reg : Nat := 0
  pc_to_x : Bool := false
  memdata_to_x : Bool := false
  csr_to_x : Bool := false
  x_override : Nat := 0
  reg_to_y : Bool := false
  y_reg : Nat := 0
  imm_to_y : Bool := false
  shamt_to_y : Bool := false
  shamt : Nat := 0
  y_override : Nat := 0
  alu_op : AluOp := .NONE
  pc_plus_4_to_z : Bool := false
  tmp_to_z : Bool := false
  x_to_pc : Bool := false
  z_to_pc : Bool := false
  memaddr_to_pc : Bool := false
  memdata_to_pc : Bool := false
  x_to_tmp : Bool := false
  x_to_memaddr : Bool := false
  z_to_memaddr : Bool := false
  memdata_to_memaddr : Bool := false
  z_to_memdata : Bool := false
  mem_rd : Bool := false
  mem_wr : Bool := false
  mem_wr_mask : Nat := 0
  z_reg : Nat := 0
  is_last : Bool := false
  funct12_to_csr_num : Bool := false
  mepc_num_to_csr_num : Bool := false
  z_to_csr : Bool := false
  exc : Option (Nat × Nat) := none
  trap_p0 : Bool := false
  trap_p1_fatal : Bool := false
  trap_p1_enter : Bool := false
  mret : Bool := false

/-- handle_illegal_instr (lines 473-475): set_exception with cause
EXC_ILLEGAL_INSTR (0x2) and mtval = instr. -/
def illegalCtrl (w : Nat) : Ctrl := { exc := some (2, w) }

/-- handle_lui (lines 596-617). -/
def handle_lui (w : Nat) : Ctrl :=
  { fmt := .U, reg_to_x := true, x_reg := 0, imm_to_y := true,
    alu_op := .ADD, z_reg := rd w, is_last := true }

/-- handle_auipc (lines 619-639). -/
def handle_auipc (w : Nat) : Ctrl :=
  { fmt := .U, pc_to_x := true, imm_to_y := true,
    alu_op := .ADD, z_reg := rd w, is_last := true }

/-- The ALU operation keyed by alu_func (consts.py, AluFunc), as
switched on in handle_op_imm / handle_op.  An unlisted key is the
illegal-instruction default. -/
def aluOpOfFunc (af : Nat) : Option AluOp :=
  if af = 0 then some .ADD
  else if af = 8 then some .SUB
  else if af = 1 then some .SLL
  else if af = 2 then some .SLT
  else if af = 11 then some .SLTU
  else if af = 4 then some .XOR
  else if af = 5 then some .SRL
  else if af = 13 then some .SRA
  else if af = 6 then some .OR
  else if af = 7 then some .AND
  else none

/-- handle_op_imm (lines 641-684).  In the illegal default, the
assignments made before and after the switch (operand routing, z_reg,
is_last) remain driven, as in the source. -/
def handle_op_imm (w : Nat) : Ctrl :=
  let base : Ctrl :=
    { fmt := .I, reg_to_x := true, x_reg := rs1 w, imm_to_y := true,
      z_reg := rd w, is_last := true }
  match aluOpOfFunc (alu_func w) with
  | some op => { base with alu_op := op }
  | none => { base with exc := some (2, w) }

/-- handle_op (lines 686-730). -/
def handle_op (w : Nat) : Ctrl :=
  let base : Ctrl :=
    { fmt := .R, reg_to_x := true, x_reg := rs1 w, reg_to_y := true,
      y_reg := rs2 w, z_reg := rd w, is_last := true }
  match aluOpOfFunc (alu_func w) with
  | some op => { base with alu_op := op }
  | none => { base with exc := some (2, w) }

/-- handle_jal (lines 732-773).  In the misaligned case the source
cancels the pc update (memaddr_to_pc is cleared again) and raises
EXC_INSTR_ADDR_MISALIGN with mtval = memaddr. -/
def handle_jal (s : CardState) (w : Nat) : Ctrl :=
  if s.instr_phase = 0 then
    { fmt := .J, pc_to_x := true, imm_to_y := true, alu_op := .ADD,
      z_to_memaddr := true, next_phase := 1 }
  else
    let base : Ctrl :=
      { fmt := .J, pc_plus_4_to_z := true, z_reg := rd w, memaddr_to_pc := true }
    if s.memaddr / 2 % 2 = 1 then
      { base with exc := some (0, s.memaddr), memaddr_to_pc := false }
    else { base with is_last := true }

/-- handle_jalr (lines 775-812).  Note that the source selects
OpcodeFormat.J for the immediate (line 789), and on misalignment
mtval = memaddr with bit 0 masked. -/
def handle_jalr (s : CardState) (w : Nat) : Ctrl :=
  if s.instr_phase = 0 then
    { fmt := .J, reg_to_x := true, x_reg := rs1 w, imm_to_y := true,
      alu_op := .ADD, z_to_memaddr := true, next_phase := 1 }
  else
    let base : Ctrl :=
      { fmt := .J, pc_plus_4_to_z := true, z_reg := rd w, memaddr_to_pc := true }
    if s.memaddr / 2 % 2 = 1 then
      { base with exc := some (0, s.memaddr &&& 0xFFFFFFFE), memaddr_to_pc := false }
    else { base with is_last := true }

/-- The branch condition decoded from funct3 and the stored ALU flags
(handle_branch, lines 848-863); the unassigned default of the cond
signal is 0, and the illegal funct3 codes raise EXC_ILLEGAL_INSTR. -/
def branchCond (s : CardState) (f3 : Nat) : Bool :=
  if f3 = 0 then s.stored_alu_eq
  else if f3 = 1 then !s.stored_alu_eq
  else if f3 = 4 then s.stored_alu_lt
  else if f3 = 5 then !s.stored_alu_lt
  else if f3 = 6 then s.stored_alu_ltu
  else if f3 = 7 then !s.stored_alu_ltu
  else false

/-- handle_branch (lines 814-883).  In phase 1 the computed target
Z = PC + (imm if cond else 4) feeds back combinationally; if its low two
bits are nonzero the pc update is cancelled and the misalignment
exception (mtval = Z) overrides any illegal-funct3 exception, matching
the statement order of the source. -/
def handle_branch (s : CardState) (w : Nat) : Ctrl :=
  if s.instr_phase = 0 then
    { fmt := .B, reg_to_x := true, x_reg := rs1 w, reg_to_y := true,
      y_reg := rs2 w, alu_op := .SUB, next_phase := 1 }
  else
    let f3 := funct3 w
    let legal := f3 = 0 ∨ f3 = 1 ∨ f3 = 4 ∨ f3 = 5 ∨ f3 = 6 ∨ f3 = 7
    let cond := branchCond s f3
    let y := if cond then decode_imm .B w else 4
    let z := alu .ADD s.pc y
    let base : Ctrl :=
      { fmt := .B, pc_to_x := true, imm_to_y := cond, shamt_to_y := !cond,
        shamt := if cond then 0 else 4, alu_op := .ADD,
        z_to_pc := true, z_to_memaddr := true,
        exc := if legal then none else some (2, w) }
    if z % 4 ≠ 0 then { base with exc := some (0, z), z_to_pc := false }
    else { base with is_last := true }

/-- handle_load (lines 885-1043).  In phase 1 the routing (mem_rd,
memdata to X, SLL to Z, z_reg = rd, next phase 2) is driven before the
funct3/alignment switch, so it remains driven when the switch raises a
misalignment or illegal exception (which resets next_phase to 0). -/
def handle_load (s : CardState) (w : Nat) : Ctrl :=
  if s.instr_phase = 0 then
    { fmt := .I, reg_to_x := true, x_reg := rs1 w, imm_to_y := true,
      alu_op := .ADD, z_to_memaddr := true, next_phase := 1 }
  else if s.instr_phase = 1 then
    let a := s.memaddr % 4
    let base : Ctrl :=
      { fmt := .I, mem_rd := true, memdata_to_x := true, shamt_to_y := true,
        alu_op := .SLL, z_reg := rd w, next_phase := 2 }
    let f3 := funct3 w
    if f3 = 0 ∨ f3 = 4 then
      { base with shamt := if a = 0 then 24 else if a = 1 then 16 else if a = 2 then 8 else 0 }
    else if f3 = 1 ∨ f3 = 5 then
      if a = 0 then { base with shamt := 16 }
      else if a = 2 then { base with shamt := 0 }
      else { base with exc := some (4, s.memaddr), next_phase := 0 }
    else if f3 = 2 then
      if a = 0 then { base with shamt := 0 }
      else { base with exc := some (4, s.memaddr), next_phase := 0 }
    else { base with exc := some (2, w), next_phase := 0 }
  else
    let base : Ctrl :=
      { fmt := .I, reg_to_x := true, x_reg := rd w, shamt_to_y := true,
        z_reg := rd w, is_last := true }
    let f3 := funct3 w
    if f3 = 0 then { base with shamt := 24, alu_op := .SRA }
    else if f3 = 4 then { base with shamt := 24, alu_op := .SRL }
    else if f3 = 1 then { base with shamt := 16, alu_op := .SRA }
    else if f3 = 5 then { base with shamt := 16, alu_op := .SRL }
    else if f3 = 2 then { base with shamt := 0, alu_op := .SRL }
    else base

/-- handle_store (lines 1045-1153). -/
def handle_store (s : CardState) (w : Nat) : Ctrl :=
  if s.instr_phase = 0 then
    { fmt := .S, reg_to_x := true, x_reg := rs1 w, imm_to_y := true,
      alu_op := .ADD, z_to_memaddr := true, next_phase := 1 }
  else if s.instr_phase = 1 then
    let a := s.memaddr % 4
    let base : Ctrl :=
      { fmt := .S, reg_to_x := true, x_reg := rs2 w, shamt_to_y := true,
        alu_op := .SLL, z_to_memdata := true, next_phase := 2 }
    let f3 := funct3 w
    if f3 = 0 then
      { base with shamt := if a = 0 then 0 else if a = 1 then 8 else if a = 2 then 16 else 24 }
    else if f3 = 1 then
      if a = 0 then { base with shamt := 0 }
      else if a = 2 then { base with shamt := 16 }
      else { base with exc := some (6, s.memaddr), next_phase := 0 }
    else if f3 = 2 then
      if a = 0 then { base with shamt := 0 }
      else { base with exc := some (6, s.memaddr), next_phase := 0 }
    else { base with exc := some (2, w), next_phase := 0 }
  else
    let a := s.memaddr % 4
    let f3 := funct3 w
    let mask :=
      if f3 = 0 then (if a = 0 then 1 else if a = 1 then 2 else if a = 2 then 4 else 8)
      else if f3 = 1 then (if a = 0 then 3 else if a = 2 then 12 else 0)
      else if f3 = 2 then (if a = 0 then 15 else 0)
      else 0
    { fmt := .S, mem_wr := true, mem_wr_mask := mask, is_last := true }

/-- handle_CSRRW (lines 1196-1223). -/
def handle_CSRRW (s : CardState) (w : Nat) : Ctrl :=
  if s.instr_phase = 0 then
    if rd w = 0 then
      { fmt := .SYS, funct12_to_csr_num := true, reg_to_x := true, x_reg := 0,
        reg_to_y := true, y_reg := rs1 w, alu_op := .Y, z_to_csr := true,
        x_to_tmp := true, next_phase := 1 }
    else
      { fmt := .SYS, funct12_to_csr_num := true, csr_to_x := true,
        reg_to_y := true, y_reg := rs1 w, alu_op := .Y, z_to_csr := true,
        x_to_tmp := true, next_phase := 1 }
  else
    { fmt := .SYS, funct12_to_csr_num := true, tmp_to_z := true,
      z_reg := rd w, is_last := true }

/-- handle_CSRRWI (lines 1225-1251). -/
def handle_CSRRWI (s : CardState) (w : Nat) : Ctrl :=
  if s.instr_phase = 0 then
    if rd w = 0 then
      { fmt := .SYS, funct12_to_csr_num := true, reg_to_x := true, x_reg := 0,
        imm_to_y := true, alu_op := .Y, z_to_csr := true,
        x_to_tmp := true, next_phase := 1 }
    else
      { fmt := .SYS, funct12_to_csr_num := true, csr_to_x := true,
        imm_to_y := true, alu_op := .Y, z_to_csr := true,
        x_to_tmp := true, next_phase := 1 }
  else
    { fmt := .SYS, funct12_to_csr_num := true, tmp_to_z := true,
      z_reg := rd w, is_last := true }

/-- handle_CSRRS (lines 1253-1272): the CSR write is enabled only when
the rs1 field is nonzero. -/
def handle_CSRRS (s : CardState) (w : Nat) : Ctrl :=
  if s.instr_phase = 0 then
    { fmt := .SYS, funct12_to_csr_num := true, csr_to_x := true,
      reg_to_y := true, y_reg := rs1 w, alu_op := .OR,
      z_to_csr := rs1 w != 0, x_to_tmp := true, next_phase := 1 }
  else
    { fmt := .SYS, funct12_to_csr_num := true, tmp_to_z := true,
      z_reg := rd w, is_last := true }

/-- handle_CSRRSI (lines 1274-1292): the CSR write is enabled only when
the zero-extended immediate is nonzero. -/
def handle_CSRRSI (s : CardState) (w : Nat) : Ctrl :=
  if s.instr_phase = 0 then
    { fmt := .SYS, funct12_to_csr_num := true, csr_to_x := true,
      imm_to_y := true, alu_op := .OR,
      z_to_csr := decode_imm .SYS w != 0, x_to_tmp := true, next_phase := 1 }
  else
    { fmt := .SYS, funct12_to_csr_num := true, tmp_to_z := true,
      z_reg := rd w, is_last := true }

/-- handle_CSRRC (lines 1294-1313). -/
def handle_CSRRC (s : CardState) (w : Nat) : Ctrl :=
  if s.instr_phase = 0 then
    { fmt := .SYS, funct12_to_csr_num := true, csr_to_x := true,
      reg_to_y := true, y_reg := rs1 w, alu_op := .AND_NOT,
      z_to_csr := rs1 w != 0, x_to_tmp := true, next_phase := 1 }
  else
    { fmt := .SYS, funct12_to_csr_num := true, tmp_to_z := true,
      z_reg := rd w, is_last := true }

/-- handle_CSRRCI (lines 1315-1333). -/
def handle_CSRRCI (s : CardState) (w : Nat) : Ctrl :=
  if s.instr_phase = 0 then
    { fmt := .SYS, funct12_to_csr_num := true, csr_to_x := true,
      imm_to_y := true, alu_op := .AND_NOT,
      z_to_csr := decode_imm .SYS w != 0, x_to_tmp := true, next_phase := 1 }
  else
    { fmt := .SYS, funct12_to_csr_num := true, tmp_to_z := true,
      z_reg := rd w, is_last := true }

/-- handle_MRET (lines 1345-1355): pc from the MEPC CSR via X; the
direct mstatus updates are marked by mret and applied by the commit. -/
def handle_MRET : Ctrl :=
  { fmt := .SYS, mepc_num_to_csr_num := true, csr_to_x := true,
    x_to_pc := true, is_last := true, mret := true }

/-- handle_PRIV (lines 1335-1343): only MRET (funct12 = 0x302 with
rd = rs1 = 0) is implemented; every other funct12, including ECALL and
EBREAK, raises the illegal-instruction exception. -/
def handle_PRIV (w : Nat) : Ctrl :=
  if funct12 w = 0x302 then
    if rd w = 0 ∧ rs1 w = 0 then handle_MRET else illegalCtrl w
  else illegalCtrl w

/-- handle_system (lines 1155-1194): dispatch on funct3 (consts.py,
SystemFunc).  The imm_format assignment made before the dispatch is
carried inside each branch of the Ctrl. -/
def handle_system (s : CardState) (w : Nat) : Ctrl :=
  let f3 := funct3 w
  if f3 = 1 then handle_CSRRW s w
  else if f3 = 5 then handle_CSRRWI s w
  else if f3 = 2 then handle_CSRRS s w
  else if f3 = 6 then handle_CSRRSI s w
  else if f3 = 3 then handle_CSRRC s w
  else if f3 = 7 then handle_CSRRCI s w
  else if f3 = 0 then handle_PRIV w
  else illegalCtrl w

/-- handle_trap (lines 535-594).  Phase 0 computes the vector address on
X/Y/Z (X = mtvec with the low 2 bits masked; Y = staged cause low bits
shifted left 2 when the staged cause is an interrupt and mtvec mode is
vectored, else 0) and stores it to memaddr; the direct register updates
are marked by trap_p0.  Any later phase either raises fatal (when the
trap came from an exception) or performs the handler fetch, loading pc
and memaddr from memory. -/
def handle_trap (s : CardState) : Ctrl :=
  if s.instr_phase = 0 then
    { x_override := s.mtvec &&& 0xFFFFFFFC,
      y_override :=
        if Nat.testBit (effCause s) 31 ∧ s.mtvec % 4 = 1 then
          effCause s % 2 ^ 30 * 4
        else 0,
      alu_op := .ADD, z_to_memaddr := true, next_phase := 1, trap_p0 := true }
  else if s.exception then { next_phase := 1, trap_p1_fatal := true }
  else
    { mem_rd := true, memdata_to_pc := true, memdata_to_memaddr := true,
      trap_p1_enter := true }

/-- The opcode dispatch of elaborate (lines 420-461), including the
all-zero-low-half and all-ones illegal-instruction checks. -/
def cardDispatch (s : CardState) (w : Nat) : Ctrl :=
  if w % 2 ^ 16 = 0 then illegalCtrl w
  else if w = 0xFFFFFFFF then illegalCtrl w
  else if opcode w = 0x37 then handle_lui w
  else if opcode w = 0x17 then handle_auipc w
  else if opcode w = 0x13 then handle_op_imm w
  else if opcode w = 0x33 then handle_op w
  else if opcode w = 0x6F then handle_jal s w
  else if opcode w = 0x67 then handle_jalr s w
  else if opcode w = 0x63 then handle_branch s w
  else if opcode w = 0x03 then handle_load s w
  else if opcode w = 0x23 then handle_store s w
  else if opcode w = 0x73 then handle_system s w
  else illegalCtrl w

/-! ## One machine cycle of the sequencer card -/

/-- The result of one machine cycle: the committed state, the register
file after the external register card's write, and the cycle's outputs. -/
structure CardResult where
  next : CardState
  regs : Regs
  fatal : Bool
  instr_complete : Bool
  mem_rd : Bool
  mem_wr : Bool
  mem_wr_mask : Nat

/-- The control signals of one machine cycle given the (latched)
instruction word: handle_trap when a trap is pending; the
instruction-address-misalignment set_exception (elaborate, lines
296-299) when pc is misaligned; otherwise the opcode dispatch. -/
def cardCtrl (s : CardState) (instr : Nat) : Ctrl :=
  if s.trap then handle_trap s
  else if s.pc % 4 ≠ 0 then { exc := some (0, s.pc) : Ctrl }
  else cardDispatch s instr

/-- The bus settling and register commits of one machine cycle of
SequencerCard.elaborate, given the control signals.  The three buses are
closed combinationally: data_x_in / data_y_in carry the register file
output when reg_to_x / reg_to_y is set, else the card's own data_x_out /
data_y_out; data_z_in carries the card's data_z_out when it drives Z,
else the ALU result.  All register commits read the pre-cycle state;
where the source states two assignments to one signal, the later
statement wins, which the ordering of s1..s8 reproduces. -/
def cardCommit (s : CardState) (regs : Regs) (memdata_rd : Nat)
    (time_irq ext_irq : Bool) (instr : Nat) (c : Ctrl) : CardResult :=
  let misalign := s.pc % 4 ≠ 0 ∧ s.trap = false
  let pc4 := (s.pc + 4) % 2 ^ 32
  let imm := decode_imm c.fmt instr
  let csr_num :=
    if c.funct12_to_csr_num then funct12 instr
    else if c.mepc_num_to_csr_num then 0x341
    else 0
  let x_out :=
    if c.pc_to_x then s.pc
    else if c.memdata_to_x then memdata_rd % 2 ^ 32
    else if c.csr_to_x then card_csr_read s csr_num
    else c.x_override
  let x_in := if c.reg_to_x then regRead regs c.x_reg else x_out
  let y_out :=
    if c.imm_to_y then imm
    else if c.shamt_to_y then c.shamt
    else c.y_override
  let y_in := if c.reg_to_y then regRead regs c.y_reg else y_out
  let z_in :=
    if c.pc_plus_4_to_z then pc4
    else if c.tmp_to_z then s.tmp
    else alu c.alu_op x_in y_in
  let interrupted :=
    c.is_last ∧ s.trap = false ∧ s.trap_svc = false ∧ (time_irq ∨ ext_irq)
      ∧ Nat.testBit s.mstatus 3
  let pc_plus_4_to_pc :=
    c.is_last ∧ c.x_to_pc = false ∧ c.z_to_pc = false ∧ c.memaddr_to_pc = false
      ∧ c.memdata_to_pc = false
  let pc' :=
    if pc_plus_4_to_pc then pc4
    else if c.x_to_pc then x_in
    else if c.z_to_pc then z_in
    else if c.memaddr_to_pc then s.memaddr &&& 0xFFFFFFFE
    else if c.memdata_to_pc then memdata_rd % 2 ^ 32
    else s.pc
  let pc_plus_4_to_memaddr :=
    c.is_last ∧ c.x_to_memaddr = false ∧ c.z_to_memaddr = false
      ∧ c.memdata_to_memaddr = false
  let memaddr' :=
    if pc_plus_4_to_memaddr then pc4
    else if c.x_to_memaddr then x_in
    else if c.z_to_memaddr then z_in
    else if c.memdata_to_memaddr then memdata_rd % 2 ^ 32
    else s.memaddr
  let s1 : CardState :=
    { s with
      pc := pc', memaddr := memaddr', instr := instr,
      instr_phase := c.next_phase,
      stored_alu_eq := aluEq x_in y_in,
      stored_alu_lt := aluLt x_in y_in,
      stored_alu_ltu := aluLtu x_in y_in,
      memdata_wr := if c.z_to_memdata then z_in else s.memdata_wr,
      tmp := if c.x_to_tmp then x_in else s.tmp }
  let s2 := if c.z_to_csr then card_csr_write s1 csr_num z_in else s1
  let s3 :=
    match c.exc with
    | some cv =>
        { s2 with
          exception := true, trap_cause := cv.1, mtval := cv.2,
          mepc := s.pc, trap := true }
    | none => s2
  let s4 :=
    if c.trap_p0 then
      { s3 with
        trap_cause := effCause s, mcause := effCause s,
        mepc := if s.exception then s3.mepc else s.pc,
        reg_time_irq := if s.reg_time_irq then false else s.reg_time_irq,
        reg_ext_irq :=
          if s.reg_time_irq then s.reg_ext_irq
          else if s.reg_ext_irq then false else s.reg_ext_irq }
    else s3
  let s5 :=
    if c.trap_p1_enter then
      { s4 with
        exception := false, trap_cause := 0, trap := false, trap_svc := true,
        mstatus := mstatusPush s.mstatus }
    else s4
  let s6 := if c.mret then { s5 with mstatus := mstatusPop s.mstatus } else s5
  let s7 :=
    if s.trap then s6
    else
      { s6 with
        reg_time_irq :=
          if Nat.testBit s.mstatus 3 then (s.reg_time_irq || time_irq) else false,
        reg_ext_irq :=
          if Nat.testBit s.mstatus 3 then (s.reg_ext_irq || ext_irq) else false }
  let s8 := if interrupted then { s7 with trap := true, mtval := s.pc } else s7
  { next := s8,
    regs := regWrite regs c.z_reg z_in,
    fatal := c.trap_p1_fatal,
    instr_complete := c.is_last,
    mem_rd :=
      ((s.instr_phase = 0 ∧ s.trap = false ∧ ¬ misalign ∧ ¬ interrupted : Prop) : Bool)
        || c.mem_rd,
    mem_wr := c.mem_wr,
    mem_wr_mask := c.mem_wr_mask }

/-- One machine cycle of SequencerCard.elaborate.  memdata_rd is the
memory bus input for this cycle; during instruction phase 0 with no trap
pending and an aligned pc it is the fetched instruction word, captured
by the transparent instruction latch during the read pulse (when
instr_complete is still low); time_irq and ext_irq are the interrupt
line inputs. -/
def cardCycle (s : CardState) (regs : Regs) (memdata_rd : Nat)
    (time_irq ext_irq : Bool) : CardResult :=
  let instr :=
    if s.instr_phase = 0 ∧ s.trap = false ∧ s.pc % 4 = 0 then memdata_rd % 2 ^ 32
    else s.instr
  cardCommit s regs memdata_rd time_irq ext_irq instr (cardCtrl s instr)

/-! ## The newer-generation control ROM (sequencer_rom.py) -/

/-- Multiplexer source selections (consts.py, SeqMuxSelect).  A selection
equal to the output bus itself means the bus is idle. -/
inductive Mux
  | MEMDATA_WR | MEMDATA_RD | MEMADDR | MEMADDR_LSB_MASKED | PC | PC_PLUS_4
  | MTVEC | MTVEC_LSR2 | TMP | IMM | INSTR | X | Y | Z | Z_LSL2 | CONST
deriving DecidableEq, Repr

/-- Constant-card values keyed by ConstSelect (consts.py, lines 209-223). -/
def romConst (i : Nat) : Nat :=
  if i = 0 then 0x00000000
  else if i = 1 then 0x00000002
  else if i = 2 then 0x00000003
  else if i = 3 then 0x00000004
  else if i = 4 then 0x00000006
  else if i = 5 then 0x0000000B
  else if i = 6 then 0x8000000B
  else if i = 7 then 0x80000007
  else if i = 8 then 0x00000000
  else if i = 9 then 0x00000004
  else if i = 10 then 0x00000008
  else if i = 11 then 0x00000010
  else if i = 12 then 0x00000018
  else 0

/-- The output signals of SequencerROM.elaborate with their defaults
(sequencer_rom.py, lines 114-150).  Register selector encodings follow
consts.py InstrReg (0 ZERO, 1 RS1, 2 RS2, 3 RD) and const_sel follows
ConstSelect. -/
structure RomCtrl where
  set_instr_complete : Bool := false
  save_trap_csrs : Bool := false
  csr_to_x : Bool := false
  z_to_csr : Bool := false
  mem_rd : Bool := false
  mem_wr : Bool := false
  mem_wr_mask : Nat := 0
  next_instr_phase : Nat := 0
  x_reg_select : Nat := 0
  y_reg_select : Nat := 0
  z_reg_select : Nat := 0
  x_mux : Mux := .X
  reg_to_x : Bool := false
  y_mux : Mux := .Y
  reg_to_y : Bool := false
  z_mux : Mux := .Z
  alu_op : AluOp := .NONE
  pc_mux : Mux := .PC
  tmp_mux : Mux := .TMP
  funct12_to_csr_num : Bool := false
  mepc_num_to_csr_num : Bool := false
  mcause_to_csr_num : Bool := false
  memaddr_mux : Mux := .MEMADDR
  memdata_wr_mux : Mux := .MEMDATA_WR
  const_sel : Nat := 0
  enter_trap : Bool := false
  exit_trap : Bool := false
  load_trap : Bool := false
  next_trap : Bool := false
  load_exception : Bool := false
  next_exception : Bool := false
  next_fatal : Bool := false

/-- next_instr (sequencer_rom.py, lines 200-219): raise
set_instr_complete and select the next pc / memaddr source; next_pc
follows consts.py NextPC (0 PC_PLUS_4, 1 MEMADDR, 2 Z, 3 X,
4 MEMADDR_NO_LSB). -/
def rom_next_instr (c : RomCtrl) (next_pc : Nat) : RomCtrl :=
  let c := { c with set_instr_complete := true }
  if next_pc = 0 then { c with pc_mux := .PC_PLUS_4, memaddr_mux := .PC_PLUS_4 }
  else if next_pc = 1 then { c with pc_mux := .MEMADDR }
  else if next_pc = 4 then { c with pc_mux := .MEMADDR_LSB_MASKED }
  else if next_pc = 2 then { c with pc_mux := .Z, memaddr_mux := .Z }
  else if next_pc = 3 then { c with pc_mux := .X, memaddr_mux := .X }
  else c

/-- set_exception (sequencer_rom.py, lines 221-239): stage the exception
and trap flags, drive the cause constant onto X, the mtval source onto
Z, and PC (fatal) or PC + 4 (non-fatal) onto Y, then save the trap CSRs
(X to MCAUSE, Y to MEPC, Z to MTVAL) and restart at phase 0. -/
def rom_set_exception (c : RomCtrl) (exc : Nat) (mtval : Mux) (fatal : Bool) : RomCtrl :=
  { c with
    load_exception := true, next_exception := true, next_fatal := fatal,
    const_sel := exc, x_mux := .CONST, z_mux := mtval,
    y_mux := if fatal then .PC else .PC_PLUS_4,
    save_trap_csrs := true, load_trap := true, next_trap := true,
    next_instr_phase := 0 }

/-- handle_illegal_instr (sequencer_rom.py, lines 241-243). -/
def rom_handle_illegal_instr (c : RomCtrl) : RomCtrl :=
  rom_set_exception c 1 .INSTR true

/-- handle_branch (sequencer_rom.py, lines 453-511).  Phase 0 compares
rs1 and rs2; phase 1 adds the immediate (or the constant 4) to PC, and
when the Z feedback bit data_z_in_2_lsb0 reports a misaligned target it
saves Z into tmp and goes to phase 2; phase 2 raises the
instruction-address-misaligned exception with mtval from TMP. -/
def rom_handle_branch (phase : Nat) (branch_cond : Bool) (z_lsb0 : Bool)
    (f3 : Nat) : RomCtrl :=
  if phase = 0 then
    { reg_to_x := true, x_reg_select := 1, reg_to_y := true, y_reg_select := 2,
      alu_op := .SUB, next_instr_phase := 1 }
  else if phase = 1 then
    if f3 = 0 ∨ f3 = 1 ∨ f3 = 4 ∨ f3 = 5 ∨ f3 = 6 ∨ f3 = 7 then
      let c : RomCtrl :=
        if branch_cond then { y_mux := .IMM }
        else { const_sel := 9, y_mux := .CONST }
      let c := { c with x_mux := .PC, alu_op := .ADD }
      if z_lsb0 then rom_next_instr c 2
      else { c with next_instr_phase := 2, tmp_mux := .Z }
    else rom_handle_illegal_instr {}
  else rom_set_exception {} 0 .TMP true

/-- handle_MRET (sequencer_rom.py, lines 970-976): read MEPC onto X,
raise exit_trap, and finish the instruction with PC and memaddr from X. -/
def rom_handle_MRET : RomCtrl :=
  rom_next_instr
    { mepc_num_to_csr_num := true, csr_to_x := true, exit_trap := true } 3

/-- handle_ECALL (sequencer_rom.py, lines 978-988): a non-fatal
EXC_ECALL_FROM_MACH_MODE exception with mtval from PC. -/
def rom_handle_ECALL : RomCtrl :=
  rom_set_exception {} 5 .PC false

/-- handle_EBREAK (sequencer_rom.py, lines 990-1000): a non-fatal
EXC_BREAKPOINT exception with mtval from PC. -/
def rom_handle_EBREAK : RomCtrl :=
  rom_set_exception {} 2 .PC false

/-! ## Data path of the ROM generation -/

/-- Modelled from the spec: the architectural and ephemeral registers
driven by the ROM's control signals.  The register cards, mux cards and
the trap-CSR save card of the ROM generation are not under src/; this
state and romCommit follow spec sections 3, 4.2 and 4.4 and the signal
documentation in sequencer_rom.py and consts.py. -/
structure RomState where
  pc : Nat
  tmp : Nat
  memaddr : Nat
  memdata_wr : Nat
  instr : Nat
  instr_phase : Nat
  mtvec : Nat
  mepc : Nat
  mcause : Nat
  mtval : Nat
  trap : Bool
  exception : Bool
  fatal : Bool
deriving Repr

/-- Modelled from the spec: the value a mux card presents for one
SeqMuxSelect source (spec section 4.2; consts.py SeqMuxSelect).  A
selection equal to the output bus itself (X, Y, Z, and the derived
Z_LSL2) means the bus is idle and is read here as 0. -/
def romMuxVal (s : RomState) (imm memdata_rd : Nat) (cs : Nat) : Mux → Nat
  | .MEMDATA_WR => s.memdata_wr
  | .MEMDATA_RD => memdata_rd % 2 ^ 32
  | .MEMADDR => s.memaddr
  | .MEMADDR_LSB_MASKED => s.memaddr &&& 0xFFFFFFFE
  | .PC => s.pc
  | .PC_PLUS_4 => (s.pc + 4) % 2 ^ 32
  | .MTVEC => s.mtvec
  | .MTVEC_LSR2 => s.mtvec / 4
  | .TMP => s.tmp
  | .IMM => imm
  | .INSTR => s.instr
  | .CONST => romConst cs
  | .X => 0
  | .Y => 0
  | .Z => 0
  | .Z_LSL2 => 0

/-- Modelled from the spec: one commit of the ROM generation's data
path given the ROM's control outputs.  The X bus carries the register
file (reg_to_x), a CSR read (csr_to_x, here only MEPC is needed), or the
x_mux source; the Y bus carries the register file or the y_mux source;
the Z bus carries the ALU result when z_mux is the idle selection Z,
else the z_mux source.  save_trap_csrs stores X to MCAUSE, Y to MEPC and
Z to MTVAL (sequencer_rom.py, line 235); load_trap and load_exception
load the staged trap and exception flags, and the fatal output, once
raised, is sticky (spec section 5). -/
def romCommit (s : RomState) (c : RomCtrl) (imm memdata_rd regX regY : Nat) :
    RomState :=
  let x :=
    if c.reg_to_x then regX
    else if c.csr_to_x then (if c.mepc_num_to_csr_num then s.mepc else 0)
    else romMuxVal s imm memdata_rd c.const_sel c.x_mux
  let y := if c.reg_to_y then regY else romMuxVal s imm memdata_rd c.const_sel c.y_mux
  let z :=
    if c.z_mux = .Z then alu c.alu_op x y
    else romMuxVal s imm memdata_rd c.const_sel c.z_mux
  let pick : Mux → Nat := fun m =>
    match m with
    | .X => x
    | .Y => y
    | .Z => z
    | .Z_LSL2 => z * 4 % 2 ^ 32
    | other => romMuxVal s imm memdata_rd c.const_sel other
  let s1 : RomState :=
    { s with
      pc := if c.pc_mux = .PC then s.pc else pick c.pc_mux,
      memaddr := if c.memaddr_mux = .MEMADDR then s.memaddr else pick c.memaddr_mux,
      memdata_wr :=
        if c.memdata_wr_mux = .MEMDATA_WR then s.memdata_wr
        else pick c.memdata_wr_mux,
      tmp := if c.tmp_mux = .TMP then s.tmp else pick c.tmp_mux,
      instr_phase := c.next_instr_phase }
  let s2 :=
    if c.save_trap_csrs then { s1 with mcause := x, mepc := y, mtval := z } else s1
  let s3 := if c.load_trap then { s2 with trap := c.next_trap } else s2
  if c.load_exception then
    { s3 with exception := c.next_exception, fatal := s.fatal || c.next_fatal }
  else s3

/-- The two trap-raising cycles of a BRANCH whose phase-1 computed
target is misaligned: the phase-1 commit followed by the phase-2 commit,
with the ROM's Z-feedback input bit data_z_in_2_lsb0 computed from the
phase-1 target Z = PC + (imm if the branch condition holds else 4). -/
def romBranchMisalignSeq (s : RomState) (imm md rX rY : Nat) (cond : Bool)
    (f3 : Nat) : RomState × RomState :=
  let z := alu .ADD s.pc (if cond then imm else 4)
  let s1 :=
    romCommit s (rom_handle_branch s.instr_phase cond (decide (z % 4 = 0)) f3)
      imm md rX rY
  let s2 :=
    romCommit s1 (rom_handle_branch s1.instr_phase cond (decide (z % 4 = 0)) f3)
      imm md rX rY
  (s1, s2)

/-! ## Concrete states used by the theorems below -/

/-- An all-zero register file. -/
def regs0 : Regs := fun _ => 0

/-- A register file with x1 = 0x1000. -/
def regsX1 : Regs := fun i => if i = 1 then 0x1000 else 0

/-- The reset state of the sequencer card (spec section 3, Lifecycle). -/
def card0 : CardState :=
  { pc := 0, instr_phase := 0, instr := 0, stored_alu_eq := false,
    stored_alu_lt := false, stored_alu_ltu := false, memaddr := 0,
    memdata_wr := 0, tmp := 0, reg_time_irq := false, reg_ext_irq := false,
    trap := false, trap_svc := false, exception := false, trap_cause := 0,
    mtvec := 0, mcause := 0, mepc := 0, mtval := 0, mstatus := 0 }

/-- A trap-entry state at phase 1 whose staged cause is
EXC_LOAD_ADDR_MISALIGN (0x4), as produced by a misaligned load. -/
def c1state : CardState :=
  { card0 with
    trap := true, exception := true, trap_cause := 4,
    instr_phase := 1, pc := 0x10 }

/-- An interrupt trap-entry state at phase 1 (exception flag clear). -/
def c1wstate : CardState :=
  { card0 with trap := true, instr_phase := 1, pc := 0x10 }

/-- A state about to execute MRET (0x30200073) inside a trap routine:
trap_svc is set, mepc = 0x80, and mstatus has MPIE = 1, MIE = 0. -/
def c2state : CardState :=
  { card0 with pc := 0x200, trap_svc := true, mepc := 0x80, mstatus := 0x80 }

/-- A trap-entry state at phase 1 whose staged cause is
EXC_INSTR_ADDR_MISALIGN (0x0), an exception-flagged, non-illegal cause. -/
def c6state : CardState :=
  { card0 with
    trap := true, exception := true, trap_cause := 0,
    instr_phase := 1, pc := 0x10 }

/-- A vectored timer-interrupt trap-entry state at phase 0, mirroring
spec scenario 7: mtvec = 0x81 (base 0x80, vectored mode). -/
def c6wstate : CardState :=
  { card0 with trap := true, reg_time_irq := true, mtvec := 0x81, pc := 0x100 }

/-- The state of the card in phase 1 of LH x1, 1(x2) (0x00111083) with
the effective address 1 (misaligned halfword) already in memaddr. -/
def c7state : CardState :=
  { card0 with pc := 4, instr := 0x00111083, instr_phase := 1, memaddr := 1 }

/-- A trap-entry state at phase 0 with both interrupt latches pending. -/
def c10state : CardState :=
  { card0 with trap := true, reg_time_irq := true, reg_ext_irq := true, pc := 0x20 }

/-- A ROM-generation data-path state with pc = 0x300. -/
def rom0 : RomState :=
  { pc := 0x300, tmp := 0, memaddr := 0, memdata_wr := 0, instr := 0,
    instr_phase := 0, mtvec := 0x80, mepc := 0, mcause := 0, mtval := 0,
    trap := false, exception := false, fatal := false }

/-- A ROM-generation data-path state in phase 1 of a BRANCH at pc 0. -/
def rom8 : RomState :=
  { pc := 0, tmp := 0, memaddr := 0, memdata_wr := 0, instr := 0,
    instr_phase := 1, mtvec := 0, mepc := 0, mcause := 0, mtval := 0,
    trap := false, exception := false, fatal := false }

/-! ## Theorems -/

/-- C1 (counterexample): the claim that fatal is never raised for a trap
cause other than EXC_ILLEGAL_INSTR fails on the card.  A trap whose
staged cause is EXC_LOAD_ADDR_MISALIGN (0x4, not illegal instruction)
raises the fatal output at trap phase 1 and does not fetch the handler:
pc is left unchanged instead of being loaded from memory. -/
theorem c1_counterexample :
    c1state.trap_cause ≠ 2 ∧
    (cardCycle c1state regs0 0x44 false false).fatal = true ∧
    (cardCycle c1state regs0 0x44 false false).next.pc = 0x10 ∧
    (cardCycle c1state regs0 0x44 false false).next.trap = true := by decide

/-- C1 (amended): in the sequencer card, a trap raises fatal at phase 1
exactly when its exception flag is set, i.e. for every trap raised by
set_exception, whatever the cause; only interrupt traps (exception flag
clear) proceed to fetch the handler's first instruction, loading pc and
memaddr from the memory word read at the vector address, clearing trap
and entering the trap service so that execution can resume via MRET. -/
theorem c1_fatal_iff_exception (s : CardState) (regs : Regs) (w : Nat)
    (t e : Bool) (htrap : s.trap = true) (hph : s.instr_phase ≠ 0) :
    (cardCycle s regs w t e).fatal = s.exception ∧
    (s.exception = false →
      (cardCycle s regs w t e).next.pc = w % 2 ^ 32 ∧
      (cardCycle s regs w t e).next.memaddr = w % 2 ^ 32 ∧
      (cardCycle s regs w t e).next.trap = false ∧
      (cardCycle s regs w t e).next.trap_svc = true ∧
      (cardCycle s regs w t e).mem_rd = true ∧
      (cardCycle s regs w t e).next.exception = false ∧
      (cardCycle s regs w t e).next.trap_cause = 0) := by
  constructor
  · cases hE : s.exception <;>
      simp [cardCycle, cardCtrl, cardCommit, handle_trap, htrap, hph, hE]
  · intro hE
    simp [cardCycle, cardCtrl, cardCommit, handle_trap, htrap, hph, hE]

/-- C1 (witness for the amended theorem): an interrupt trap at phase 1
is non-fatal and fetches the handler. -/
theorem c1_witness :
    c1wstate.trap = true ∧ c1wstate.instr_phase ≠ 0 ∧
    ((cardCycle c1wstate regs0 0x44 false false).fatal = c1wstate.exception ∧
     (c1wstate.exception = false →
       (cardCycle c1wstate regs0 0x44 false false).next.pc = 0x44 % 2 ^ 32 ∧
       (cardCycle c1wstate regs0 0x44 false false).next.memaddr = 0x44 % 2 ^ 32 ∧
       (cardCycle c1wstate regs0 0x44 false false).next.trap = false ∧
       (cardCycle c1wstate regs0 0x44 false false).next.trap_svc = true ∧
       (cardCycle c1wstate regs0 0x44 false false).mem_rd = true ∧
       (cardCycle c1wstate regs0 0x44 false false).next.exception = false ∧
       (cardCycle c1wstate regs0 0x44 false false).next.trap_cause = 0)) :=
  ⟨rfl, by decide,
    c1_fatal_iff_exception c1wstate regs0 0x44 false false rfl (by decide)⟩

/-- C2: evaluating the card at MRET (0x30200073, rd = rs1 = 0) from a
state inside the trap service (trap_svc = 1, mepc = 0x80, old
mstatus.MPIE = 1, old mstatus.MIE = 0) commits pc = mepc,
mstatus.MIE = old MPIE and mstatus.MPIE = 1 as claimed, but leaves
trap_svc at 1: the card never clears trap_svc (the newer control ROM
raises exit_trap for this), so the claimed postcondition trap_svc = 0
fails. -/
theorem c2_mret_eval :
    (cardCycle c2state regs0 0x30200073 false false).next.pc = 0x80 ∧
    Nat.testBit (cardCycle c2state regs0 0x30200073 false false).next.mstatus 3 = true ∧
    Nat.testBit (cardCycle c2state regs0 0x30200073 false false).next.mstatus 7 = true ∧
    (cardCycle c2state regs0 0x30200073 false false).next.trap_svc = true ∧
    (cardCycle c2state regs0 0x30200073 false false).instr_complete = true := by decide

/-- C3: in the newer-generation control ROM, executing ECALL raises a
non-fatal trap with cause EXC_ECALL_FROM_MACH_MODE (0xB) and executing
EBREAK raises a non-fatal trap with cause EXC_BREAKPOINT (0x3), in both
cases committing mepc = PC + 4 and mtval = the PC of the instruction
itself. -/
theorem c3_ecall_ebreak (s : RomState) (imm md rX rY : Nat) :
    ((romCommit s rom_handle_ECALL imm md rX rY).mcause = 0xB ∧
     (romCommit s rom_handle_ECALL imm md rX rY).mepc = (s.pc + 4) % 2 ^ 32 ∧
     (romCommit s rom_handle_ECALL imm md rX rY).mtval = s.pc ∧
     (romCommit s rom_handle_ECALL imm md rX rY).trap = true ∧
     rom_handle_ECALL.next_fatal = false ∧
     (romCommit s rom_handle_ECALL imm md rX rY).fatal = s.fatal) ∧
    ((romCommit s rom_handle_EBREAK imm md rX rY).mcause = 0x3 ∧
     (romCommit s rom_handle_EBREAK imm md rX rY).mepc = (s.pc + 4) % 2 ^ 32 ∧
     (romCommit s rom_handle_EBREAK imm md rX rY).mtval = s.pc ∧
     (romCommit s rom_handle_EBREAK imm md rX rY).trap = true ∧
     rom_handle_EBREAK.next_fatal = false ∧
     (romCommit s rom_handle_EBREAK imm md rX rY).fatal = s.fatal) := by
  simp [romCommit, rom_handle_ECALL, rom_handle_EBREAK, rom_set_exception,
    romMuxVal, romConst, alu]

/-- C4 (counterexample): MIE (0x304) is not recognised by the card's CSR
routing; a write of 5 to it changes nothing and a subsequent read
returns 0, not the written value.  (The same holds for MIP, 0x344.) -/
theorem c4_counterexample :
    card_csr_write card0 0x304 5 = card0 ∧
    card_csr_read (card_csr_write card0 0x304 5) 0x304 ≠ 5 := by
  constructor
  · rfl
  · decide

/-- C4 (amended): only five of the seven claimed CSR addresses are
recognised by the read/write routing: MSTATUS (0x300), MTVEC (0x305),
MEPC (0x341), MCAUSE (0x342) and MTVAL (0x343) read their stored value
and store writes verbatim; MIE (0x304) and MIP (0x344) have no storage
in the sequencer card, read as 0, and writes to them are dropped. -/
theorem c4_csr_routing (s : CardState) (v : Nat) :
    (card_csr_read s 0x300 = s.mstatus ∧ card_csr_read s 0x305 = s.mtvec ∧
     card_csr_read s 0x341 = s.mepc ∧ card_csr_read s 0x342 = s.mcause ∧
     card_csr_read s 0x343 = s.mtval ∧
     card_csr_read s 0x304 = 0 ∧ card_csr_read s 0x344 = 0) ∧
    ((card_csr_write s 0x300 v).mstatus = v ∧
     (card_csr_write s 0x305 v).mtvec = v ∧
     (card_csr_write s 0x341 v).mepc = v ∧
     (card_csr_write s 0x342 v).mcause = v ∧
     (card_csr_write s 0x343 v).mtval = v ∧
     card_csr_write s 0x304 v = s ∧ card_csr_write s 0x344 v = s) := by
  refine ⟨⟨?_, ?_, ?_, ?_, ?_, ?_, ?_⟩, ⟨?_, ?_, ?_, ?_, ?_, ?_, ?_⟩⟩ <;>
    simp [card_csr_read, card_csr_write]

/-- C5: in phase 0 of JALR x0, 0(x1) (0x00008067) with x1 = 0x1000, the
card writes memaddr = 0x9000, because handle_jalr decodes the immediate
with the J format (sequencer_card.py line 789; consts.py lists JALR
under OpcodeFormat.J), which picks up the rs1 field bits as immediate
bit 15; the I-format immediate of this instruction is 0, so the claimed
target rs1 + imm(I) = 0x1000 is not what is written. -/
theorem c5_jalr_eval :
    (cardCycle { card0 with pc := 0x200 } regsX1 0x00008067 false false).next.memaddr = 0x9000 ∧
    decode_imm .J 0x00008067 = 0x8000 ∧
    decode_imm .I 0x00008067 = 0 ∧
    (cardCycle { card0 with pc := 0x200 } regsX1 0x00008067 false false).next.memaddr ≠
      (regRead regsX1 1 + decode_imm .I 0x00008067) % 2 ^ 32 := by decide

/-- C6 (counterexample): the claim that trap phase 1 loads both PC and
memaddr from the memory word at the vector address fails for
exception-flagged traps: with staged cause EXC_INSTR_ADDR_MISALIGN the
card raises fatal at phase 1 and leaves pc unchanged instead of loading
the memory word 0x44. -/
theorem c6_counterexample :
    (cardCycle c6state regs0 0x44 false false).next.pc ≠ 0x44 ∧
    (cardCycle c6state regs0 0x44 false false).next.pc = 0x10 ∧
    (cardCycle c6state regs0 0x44 false false).fatal = true := by decide

/-- C7: on a misaligned halfword load (LH x1, 1(x2), effective address
1) the card enters exactly the load-address-misaligned trap
(cause 0x4, mtval = memaddr, mepc = pc) as claimed, but the claim that
no general-purpose register is written fails: phase 1 still drives
z_reg = rd, so x1 is overwritten with the raw memory word (here
0xDEADBEEF) before the trap is taken.  The newer control ROM checks the
exception conditions first and selects no destination register. -/
theorem c7_load_misalign_eval :
    (cardCycle c7state regs0 0xDEADBEEF false false).next.trap = true ∧
    (cardCycle c7state regs0 0xDEADBEEF false false).next.exception = true ∧
    (cardCycle c7state regs0 0xDEADBEEF false false).next.trap_cause = 4 ∧
    (cardCycle c7state regs0 0xDEADBEEF false false).next.mtval = 1 ∧
    (cardCycle c7state regs0 0xDEADBEEF false false).next.mepc = 4 ∧
    (cardCycle c7state regs0 0xDEADBEEF false false).regs 1 = 0xDEADBEEF ∧
    (cardCycle c7state regs0 0xDEADBEEF false false).regs 1 ≠ regs0 1 := by decide

/-- C6 (amended): at trap entry phase 0 the card writes to memaddr the
vector address (mtvec & ~3) + 4 * (low 30 staged-cause bits) when the
staged cause is an interrupt (bit 31 set) and mtvec[1:0] = 1, and
(mtvec & ~3) otherwise, committing mcause to the staged cause and moving
to phase 1; phase 1 loads both PC and memaddr from the memory word read
at that vector address only when the trap's exception flag is clear
(interrupt traps) — exception-flagged traps instead raise fatal and
leave PC unchanged (see the counterexample). -/
theorem c6_trap_vector (s : CardState) (regs : Regs) (w : Nat) (t e : Bool)
    (htrap : s.trap = true) :
    (s.instr_phase = 0 →
      (cardCycle s regs w t e).next.memaddr =
        ((s.mtvec &&& 0xFFFFFFFC) +
          (if Nat.testBit (effCause s) 31 ∧ s.mtvec % 4 = 1
           then effCause s % 2 ^ 30 * 4 else 0)) % 2 ^ 32 ∧
      (cardCycle s regs w t e).next.mcause = effCause s ∧
      (cardCycle s regs w t e).next.instr_phase = 1) ∧
    (s.instr_phase ≠ 0 → s.exception = false →
      (cardCycle s regs w t e).next.pc = w % 2 ^ 32 ∧
      (cardCycle s regs w t e).next.memaddr = w % 2 ^ 32) := by
  constructor
  · intro hph
    refine ⟨?_, ?_, ?_⟩
    · simp [cardCycle, cardCtrl, cardCommit, handle_trap, htrap, hph, alu]
    · simp [cardCycle, cardCtrl, cardCommit, handle_trap, htrap, hph]
    · simp [cardCycle, cardCtrl, cardCommit, handle_trap, htrap, hph]
  · intro hph hE
    constructor <;>
      simp [cardCycle, cardCtrl, cardCommit, handle_trap, htrap, hph, hE]

/-- C6 (witness for the amended theorem): the vectored timer-interrupt
entry of spec scenario 7 (mtvec = 0x81, staged cause 0x80000007) writes
memaddr = 0x80 + 7 * 4 = 0x9C and mcause = 0x80000007. -/
theorem c6_witness :
    c6wstate.trap = true ∧
    ((c6wstate.instr_phase = 0 →
      (cardCycle c6wstate regs0 0 false false).next.memaddr =
        ((c6wstate.mtvec &&& 0xFFFFFFFC) +
          (if Nat.testBit (effCause c6wstate) 31 ∧ c6wstate.mtvec % 4 = 1
           then effCause c6wstate % 2 ^ 30 * 4 else 0)) % 2 ^ 32 ∧
      (cardCycle c6wstate regs0 0 false false).next.mcause = effCause c6wstate ∧
      (cardCycle c6wstate regs0 0 false false).next.instr_phase = 1) ∧
    (c6wstate.instr_phase ≠ 0 → c6wstate.exception = false →
      (cardCycle c6wstate regs0 0 false false).next.pc = 0 % 2 ^ 32 ∧
      (cardCycle c6wstate regs0 0 false false).next.memaddr = 0 % 2 ^ 32)) ∧
    (cardCycle c6wstate regs0 0 false false).next.memaddr = 0x9C :=
  ⟨rfl, c6_trap_vector c6wstate regs0 0 false false rfl, by decide⟩

/-- C8: in the newer-generation control ROM, a BRANCH whose phase-1
computed next-PC value Z has nonzero low two bits proceeds to phase 2,
saving the intended target Z into tmp during phase 1 and leaving PC
unchanged; phase 2 raises the instruction-address-misaligned trap
(cause 0x0) with mtval equal to tmp, and PC is never updated with the
misaligned target. -/
theorem c8_branch_misalign (s : RomState) (imm md rX rY : Nat) (cond : Bool)
    (f3 : Nat) (hph : s.instr_phase = 1)
    (hf3 : f3 = 0 ∨ f3 = 1 ∨ f3 = 4 ∨ f3 = 5 ∨ f3 = 6 ∨ f3 = 7)
    (hmis : alu .ADD s.pc (if cond then imm else 4) % 4 ≠ 0) :
    (romBranchMisalignSeq s imm md rX rY cond f3).1.instr_phase = 2 ∧
    (romBranchMisalignSeq s imm md rX rY cond f3).1.tmp =
      alu .ADD s.pc (if cond then imm else 4) ∧
    (romBranchMisalignSeq s imm md rX rY cond f3).1.pc = s.pc ∧
    (romBranchMisalignSeq s imm md rX rY cond f3).1.trap = s.trap ∧
    (romBranchMisalignSeq s imm md rX rY cond f3).2.mtval =
      (romBranchMisalignSeq s imm md rX rY cond f3).1.tmp ∧
    (romBranchMisalignSeq s imm md rX rY cond f3).2.mcause = 0 ∧
    (romBranchMisalignSeq s imm md rX rY cond f3).2.trap = true ∧
    (romBranchMisalignSeq s imm md rX rY cond f3).2.pc = s.pc := by
  rcases hf3 with h|h|h|h|h|h <;> cases cond <;>
    simp_all [romBranchMisalignSeq, rom_handle_branch, rom_next_instr,
      rom_set_exception, rom_handle_illegal_instr, romCommit, romMuxVal,
      romConst]

/-- C8 (witness): BEQ taken with immediate 6 from pc 0 targets Z = 6,
which is misaligned; tmp receives 6 and the phase-2 trap reports
mtval = 6 with pc still 0. -/
theorem c8_witness :
    rom8.instr_phase = 1 ∧
    ((romBranchMisalignSeq rom8 6 0 0 0 true 0).1.instr_phase = 2 ∧
     (romBranchMisalignSeq rom8 6 0 0 0 true 0).1.tmp =
       alu .ADD rom8.pc (if true then 6 else 4) ∧
     (romBranchMisalignSeq rom8 6 0 0 0 true 0).1.pc = rom8.pc ∧
     (romBranchMisalignSeq rom8 6 0 0 0 true 0).1.trap = rom8.trap ∧
     (romBranchMisalignSeq rom8 6 0 0 0 true 0).2.mtval =
       (romBranchMisalignSeq rom8 6 0 0 0 true 0).1.tmp ∧
     (romBranchMisalignSeq rom8 6 0 0 0 true 0).2.mcause = 0 ∧
     (romBranchMisalignSeq rom8 6 0 0 0 true 0).2.trap = true ∧
     (romBranchMisalignSeq rom8 6 0 0 0 true 0).2.pc = rom8.pc) :=
  ⟨rfl, c8_branch_misalign rom8 6 0 0 0 true 0 rfl (Or.inl rfl) (by decide)⟩

/-- Writing through a zero register selector leaves the register file
unchanged (the selector 0 means no destination). -/
theorem regWrite_zero (r : Regs) (v : Nat) : regWrite r 0 v = r := by
  simp [regWrite]

/-- C9: a CSRRS/CSRRC with rs1 = x0, or a CSRRSI/CSRRCI with zero
immediate (the immediate is the zero-extended rs1 field), performs no
CSR write — all five stored CSRs are unchanged over both cycles of the
instruction — while rd still receives the old CSR value as routed by
card_csr_read (0 for the unimplemented CSRs). -/
theorem c9_csrrs_readonly (s : CardState) (regs : Regs) (w m2 : Nat)
    (hw : w < 2 ^ 32) (htrap : s.trap = false) (hph : s.instr_phase = 0)
    (hpc : s.pc % 4 = 0) (hop : opcode w = 0x73)
    (hf3 : funct3 w = 2 ∨ funct3 w = 3 ∨ funct3 w = 6 ∨ funct3 w = 7)
    (hrs1 : rs1 w = 0) :
    ((cardCycle s regs w false false).next.mstatus = s.mstatus ∧
     (cardCycle s regs w false false).next.mtvec = s.mtvec ∧
     (cardCycle s regs w false false).next.mepc = s.mepc ∧
     (cardCycle s regs w false false).next.mcause = s.mcause ∧
     (cardCycle s regs w false false).next.mtval = s.mtval ∧
     (cardCycle s regs w false false).next.trap = false ∧
     (cardCycle s regs w false false).regs = regs) ∧
    ((cardCycle (cardCycle s regs w false false).next
        (cardCycle s regs w false false).regs m2 false false).next.mstatus = s.mstatus ∧
     (cardCycle (cardCycle s regs w false false).next
        (cardCycle s regs w false false).regs m2 false false).next.mtvec = s.mtvec ∧
     (cardCycle (cardCycle s regs w false false).next
        (cardCycle s regs w false false).regs m2 false false).next.mepc = s.mepc ∧
     (cardCycle (cardCycle s regs w false false).next
        (cardCycle s regs w false false).regs m2 false false).next.mcause = s.mcause ∧
     (cardCycle (cardCycle s regs w false false).next
        (cardCycle s regs w false false).regs m2 false false).next.mtval = s.mtval ∧
     (cardCycle (cardCycle s regs w false false).next
        (cardCycle s regs w false false).regs m2 false false).regs =
       regWrite regs (rd w) (card_csr_read s (funct12 w))) := by
  have hmod : w % 4294967296 = w := Nat.mod_eq_of_lt (by omega)
  have h16 : ¬ w % 65536 = 0 := by
    intro h0
    have h3 : funct3 w = 0 := by unfold funct3; omega
    rcases hf3 with h|h|h|h <;> rw [h3] at h <;> exact absurd h (by decide)
  have hFF : w ≠ 4294967295 := by
    intro h0; rw [h0] at hrs1; exact absurd hrs1 (by decide)
  have hdisp : ∀ s' : CardState, cardDispatch s' w = handle_system s' w := by
    intro s'
    simp [cardDispatch, hop, h16, hFF]
  rcases hf3 with h|h|h|h <;>
    simp [cardCycle, cardCtrl, cardCommit, hdisp, handle_system, handle_CSRRS,
      handle_CSRRSI, handle_CSRRC, handle_CSRRCI, decode_imm, htrap, hph, hpc,
      h, hrs1, hmod, regWrite_zero]

/-- C9 (witness): CSRRS x1, mstatus, x0 (0x300020F3) with
mstatus = 0xAB leaves every CSR unchanged and writes 0xAB to x1. -/
theorem c9_witness :
    (opcode 0x300020F3 = 0x73 ∧ funct3 0x300020F3 = 2 ∧ rs1 0x300020F3 = 0) ∧
    (((cardCycle { card0 with pc := 0x100, mstatus := 0xAB } regs0 0x300020F3 false false).next.mstatus =
        ({ card0 with pc := 0x100, mstatus := 0xAB } : CardState).mstatus ∧
      (cardCycle { card0 with pc := 0x100, mstatus := 0xAB } regs0 0x300020F3 false false).next.mtvec =
        ({ card0 with pc := 0x100, mstatus := 0xAB } : CardState).mtvec ∧
      (cardCycle { card0 with pc := 0x100, mstatus := 0xAB } regs0 0x300020F3 false false).next.mepc =
        ({ card0 with pc := 0x100, mstatus := 0xAB } : CardState).mepc ∧
      (cardCycle { card0 with pc := 0x100, mstatus := 0xAB } regs0 0x300020F3 false false).next.mcause =
        ({ card0 with pc := 0x100, mstatus := 0xAB } : CardState).mcause ∧
      (cardCycle { card0 with pc := 0x100, mstatus := 0xAB } regs0 0x300020F3 false false).next.mtval =
        ({ card0 with pc := 0x100, mstatus := 0xAB } : CardState).mtval ∧
      (cardCycle { card0 with pc := 0x100, mstatus := 0xAB } regs0 0x300020F3 false false).next.trap = false ∧
      (cardCycle { card0 with pc := 0x100, mstatus := 0xAB } regs0 0x300020F3 false false).regs = regs0) ∧
     ((cardCycle (cardCycle { card0 with pc := 0x100, mstatus := 0xAB } regs0 0x300020F3 false false).next
         (cardCycle { card0 with pc := 0x100, mstatus := 0xAB } regs0 0x300020F3 false false).regs 0 false false).next.mstatus =
        ({ card0 with pc := 0x100, mstatus := 0xAB } : CardState).mstatus ∧
      (cardCycle (cardCycle { card0 with pc := 0x100, mstatus := 0xAB } regs0 0x300020F3 false false).next
         (cardCycle { card0 with pc := 0x100, mstatus := 0xAB } regs0 0x300020F3 false false).regs 0 false false).next.mtvec =
        ({ card0 with pc := 0x100, mstatus := 0xAB } : CardState).mtvec ∧
      (cardCycle (cardCycle { card0 with pc := 0x100, mstatus := 0xAB } regs0 0x300020F3 false false).next
         (cardCycle { card0 with pc := 0x100, mstatus := 0xAB } regs0 0x300020F3 false false).regs 0 false false).next.mepc =
        ({ card0 with pc := 0x100, mstatus := 0xAB } : CardState).mepc ∧
      (cardCycle (cardCycle { card0 with pc := 0x100, mstatus := 0xAB } regs0 0x300020F3 false false).next
         (cardCycle { card0 with pc := 0x100, mstatus := 0xAB } regs0 0x300020F3 false false).regs 0 false false).next.mcause =
        ({ card0 with pc := 0x100, mstatus := 0xAB } : CardState).mcause ∧
      (cardCycle (cardCycle { card0 with pc := 0x100, mstatus := 0xAB } regs0 0x300020F3 false false).next
         (cardCycle { card0 with pc := 0x100, mstatus := 0xAB } regs0 0x300020F3 false false).regs 0 false false).next.mtval =
        ({ card0 with pc := 0x100, mstatus := 0xAB } : CardState).mtval ∧
      (cardCycle (cardCycle { card0 with pc := 0x100, mstatus := 0xAB } regs0 0x300020F3 false false).next
         (cardCycle { card0 with pc := 0x100, mstatus := 0xAB } regs0 0x300020F3 false false).regs 0 false false).regs =
        regWrite regs0 (rd 0x300020F3) (card_csr_read { card0 with pc := 0x100, mstatus := 0xAB } (funct12 0x300020F3)))) :=
  ⟨by decide,
    c9_csrrs_readonly { card0 with pc := 0x100, mstatus := 0xAB } regs0
      0x300020F3 0 (by decide) rfl rfl (by decide) (by decide)
      (Or.inl (by decide)) (by decide)⟩

/-- C10: at trap entry phase 0 at most one pending-interrupt latch is
cleared: reg_time_irq always ends the cycle clear, and reg_ext_irq is
cleared exactly when reg_time_irq was clear — a simultaneously pending
external interrupt stays latched across a timer trap entry
(next reg_ext_irq = reg_time_irq AND reg_ext_irq). -/
theorem c10_irq_latch (s : CardState) (regs : Regs) (w : Nat) (t e : Bool)
    (htrap : s.trap = true) (hph : s.instr_phase = 0) :
    (cardCycle s regs w t e).next.reg_time_irq = false ∧
    (cardCycle s regs w t e).next.reg_ext_irq =
      (s.reg_time_irq && s.reg_ext_irq) := by
  cases hT : s.reg_time_irq <;> cases hX : s.reg_ext_irq <;>
    simp [cardCycle, cardCtrl, cardCommit, handle_trap, htrap, hph, hT, hX]

/-- C10 (witness): with both latches pending, trap entry clears the
timer latch and leaves the external latch set. -/
theorem c10_witness :
    c10state.trap = true ∧ c10state.instr_phase = 0 ∧
    ((cardCycle c10state regs0 0 false false).next.reg_time_irq = false ∧
     (cardCycle c10state regs0 0 false false).next.reg_ext_irq =
       (c10state.reg_time_irq && c10state.reg_ext_irq)) :=
  ⟨rfl, rfl, c10_irq_latch c10state regs0 0 false false rfl rfl⟩

end RVSeq
